import Mathlib

/-!
Shallow embedding of the student registration and login system
(`src/student_system.py`, with `src/cw.py` where its behaviour differs).

Python strings are modelled at the ASCII level that the program's data
uses: `str.strip` / `str.upper` / `str.lower` / `str.title` are modelled
character-wise with `Char.toUpper` / `Char.toLower`, and `in` on strings
is modelled as a substring test on the character lists.  The clock
(`datetime.now().strftime(...)`) is passed in as an explicit `now`
argument, and the data file is modelled as an explicit `DiskFile` value;
a save that reaches the OS is modelled as succeeding (I/O device failure
is outside the model).
-/

namespace StudentSys

/-- Model of the whitespace class of Python's `str.strip`. -/
def isPySpace (c : Char) : Bool :=
  c == ' ' || c == '\t' || c == '\n' || c == '\r' || c == '\x0b' || c == '\x0c'

/-- Model of Python's `str.strip()`: drop whitespace at both ends. -/
def trimS (s : String) : String :=
  ⟨((s.data.dropWhile isPySpace).reverse.dropWhile isPySpace).reverse⟩

/-- Model of Python's `str.lower()` (ASCII). -/
def lowerS (s : String) : String := ⟨s.data.map Char.toLower⟩

/-- Model of Python's `str.upper()` (ASCII). -/
def upperS (s : String) : String := ⟨s.data.map Char.toUpper⟩

/-- Worker for `titleS`: the flag records whether the previous character
was a letter (a cased character). -/
def titleGo : Bool → List Char → List Char
  | _, [] => []
  | prevAlpha, c :: cs =>
    if c.isAlpha then
      (if prevAlpha then c.toLower else c.toUpper) :: titleGo true cs
    else
      c :: titleGo false cs

/-- Model of Python's `str.title()` (ASCII): the first letter of every
letter-run is uppercased, the rest lowercased. -/
def titleS (s : String) : String := ⟨titleGo false s.data⟩

/-- `startsWithL needle hay`: `needle` is a prefix of `hay`. -/
def startsWithL : List Char → List Char → Bool
  | [], _ => true
  | _ :: _, [] => false
  | a :: as, b :: bs => a == b && startsWithL as bs

/-- `containsL needle hay`: `needle` occurs as a contiguous run inside
`hay` — the model of Python's `needle in hay` on strings.  The empty
needle is contained in everything, as in Python. -/
def containsL : List Char → List Char → Bool
  | needle, [] => needle.isEmpty
  | needle, b :: bs => startsWithL needle (b :: bs) || containsL needle bs

/-! ### SHA-256 (`hashlib.sha256(password.encode()).hexdigest()`)

FIPS 180-4 SHA-256 over the UTF-8 bytes of the input, producing the
lowercase hexadecimal digest.  Words are `Nat`s kept below `2 ^ 32` by
explicit reduction. -/

/-- `2 ^ 32`, the word modulus. -/
def M32 : Nat := 4294967296

/-- 32-bit exclusive or (arguments assumed `< 2 ^ 32`). -/
def xor32 (a b : Nat) : Nat := Nat.xor a b

/-- 32-bit conjunction (arguments assumed `< 2 ^ 32`). -/
def and32 (a b : Nat) : Nat := Nat.land a b

/-- 32-bit complement (argument assumed `< 2 ^ 32`). -/
def not32 (a : Nat) : Nat := 4294967295 - a % M32

/-- Rotate a 32-bit word right by `n` bits. -/
def rotr32 (n x : Nat) : Nat := x / 2 ^ n + x % 2 ^ n * 2 ^ (32 - n)

/-- Shift a 32-bit word right by `n` bits. -/
def shr32 (n x : Nat) : Nat := x / 2 ^ n

/-- SHA-256 big sigma 0. -/
def bsig0 (x : Nat) : Nat := xor32 (xor32 (rotr32 2 x) (rotr32 13 x)) (rotr32 22 x)

/-- SHA-256 big sigma 1. -/
def bsig1 (x : Nat) : Nat := xor32 (xor32 (rotr32 6 x) (rotr32 11 x)) (rotr32 25 x)

/-- SHA-256 small sigma 0. -/
def ssig0 (x : Nat) : Nat := xor32 (xor32 (rotr32 7 x) (rotr32 18 x)) (shr32 3 x)

/-- SHA-256 small sigma 1. -/
def ssig1 (x : Nat) : Nat := xor32 (xor32 (rotr32 17 x) (rotr32 19 x)) (shr32 10 x)

/-- SHA-256 choice function. -/
def chF (e f g : Nat) : Nat := xor32 (and32 e f) (and32 (not32 e) g)

/-- SHA-256 majority function. -/
def majF (a b c : Nat) : Nat := xor32 (xor32 (and32 a b) (and32 a c)) (and32 b c)

/-- The 64 SHA-256 round constants of FIPS 180-4 (the fractional parts
of the cube roots of the first 64 primes), written in decimal. -/
def K256 : List Nat :=
  [1116352408, 1899447441, 3049323471, 3921009573,
   961987163, 1508970993, 2453635748, 2870763221,
   3624381080, 310598401, 607225278, 1426881987,
   1925078388, 2162078206, 2614888103, 3248222580,
   3835390401, 4022224774, 264347078, 604807628,
   770255983, 1249150122, 1555081692, 1996064986,
   2554220882, 2821834349, 2952996808, 3210313671,
   3336571891, 3584528711, 113926993, 338241895,
   666307205, 773529912, 1294757372, 1396182291,
   1695183700, 1986661051, 2177026350, 2456956037,
   2730485921, 2820302411, 3259730800, 3345764771,
   3516065817, 3600352804, 4094571909, 275423344,
   430227734, 506948616, 659060556, 883997877,
   958139571, 1322822218, 1537002063, 1747873779,
   1955562222, 2024104815, 2227730452, 2361852424,
   2428436474, 2756734187, 3204031479, 3329325298]

/-- The eight SHA-256 working variables. -/
structure Hash8 where
  a : Nat
  b : Nat
  c : Nat
  d : Nat
  e : Nat
  f : Nat
  g : Nat
  h : Nat
deriving DecidableEq

/-- The SHA-256 initial hash value of FIPS 180-4, in decimal. -/
def initH : Hash8 :=
  { a := 1779033703, b := 3144134277, c := 1013904242, d := 2773480762,
    e := 1359893119, f := 2600822924, g := 528734635, h := 1541459225 }

/-- Append the number-padding and bit-length trailer of SHA-256 to a
byte string. -/
def padMessage (msg : List Nat) : List Nat :=
  let l := msg.length
  let zeros := (119 - l % 64) % 64
  let bl := 8 * l
  msg ++ [128] ++ List.replicate zeros 0 ++
    [bl / 2 ^ 56 % 256, bl / 2 ^ 48 % 256, bl / 2 ^ 40 % 256, bl / 2 ^ 32 % 256,
     bl / 2 ^ 24 % 256, bl / 2 ^ 16 % 256, bl / 2 ^ 8 % 256, bl % 256]

/-- Group bytes into big-endian 32-bit words. -/
def bytesToWords : List Nat → List Nat
  | b0 :: b1 :: b2 :: b3 :: rest =>
      (((b0 * 256 + b1) * 256 + b2) * 256 + b3) :: bytesToWords rest
  | _ => []

/-- Group words into 16-word message blocks. -/
def toBlocks : List Nat → List (List Nat)
  | w0 :: w1 :: w2 :: w3 :: w4 :: w5 :: w6 :: w7 ::
    w8 :: w9 :: w10 :: w11 :: w12 :: w13 :: w14 :: w15 :: rest =>
      [w0, w1, w2, w3, w4, w5, w6, w7, w8, w9, w10, w11, w12, w13, w14, w15] :: toBlocks rest
  | _ => []

/-- Extend a message block by `n` further schedule words. -/
def extendSchedule : Nat → List Nat → List Nat
  | 0, ws => ws
  | n + 1, ws =>
      let len := ws.length
      let w := (ssig1 (ws.getD (len - 2) 0) + ws.getD (len - 7) 0 +
                ssig0 (ws.getD (len - 15) 0) + ws.getD (len - 16) 0) % M32
      extendSchedule n (ws ++ [w])

/-- One round of the SHA-256 compression function; `kw` pairs the round
constant with the schedule word. -/
def compressRound (s : Hash8) (kw : Nat × Nat) : Hash8 :=
  let t1 := (s.h + bsig1 s.e + chF s.e s.f s.g + kw.1 + kw.2) % M32
  let t2 := (bsig0 s.a + majF s.a s.b s.c) % M32
  { a := (t1 + t2) % M32, b := s.a, c := s.b, d := s.c,
    e := (s.d + t1) % M32, f := s.e, g := s.f, h := s.g }

/-- Process one 16-word block, updating the running hash value. -/
def processBlock (h0 : Hash8) (block : List Nat) : Hash8 :=
  let ws := extendSchedule 48 block
  let s := (K256.zip ws).foldl compressRound h0
  { a := (h0.a + s.a) % M32, b := (h0.b + s.b) % M32,
    c := (h0.c + s.c) % M32, d := (h0.d + s.d) % M32,
    e := (h0.e + s.e) % M32, f := (h0.f + s.f) % M32,
    g := (h0.g + s.g) % M32, h := (h0.h + s.h) % M32 }

/-- SHA-256 of a byte string, as the list of eight 32-bit hash words. -/
def sha256Words (msg : List Nat) : List Nat :=
  let hf := (toBlocks (bytesToWords (padMessage msg))).foldl processBlock initH
  [hf.a, hf.b, hf.c, hf.d, hf.e, hf.f, hf.g, hf.h]

/-- One lowercase hexadecimal digit. -/
def hexChar (n : Nat) : Char := "0123456789abcdef".data.getD n 'x'

/-- The eight hexadecimal digits of a 32-bit word, most significant
first. -/
def word32Hex (w : Nat) : List Char :=
  [hexChar (w / 16 ^ 7 % 16), hexChar (w / 16 ^ 6 % 16), hexChar (w / 16 ^ 5 % 16),
   hexChar (w / 16 ^ 4 % 16), hexChar (w / 16 ^ 3 % 16), hexChar (w / 16 ^ 2 % 16),
   hexChar (w / 16 % 16), hexChar (w % 16)]

/-- UTF-8 encoding of one code point (model of `str.encode()`). -/
def utf8Bytes (n : Nat) : List Nat :=
  if n < 128 then [n]
  else if n < 2048 then [192 + n / 64, 128 + n % 64]
  else if n < 65536 then [224 + n / 4096, 128 + n / 64 % 64, 128 + n % 64]
  else [240 + n / 262144, 128 + n / 4096 % 64, 128 + n / 64 % 64, 128 + n % 64]

/-- The UTF-8 bytes of a string (model of `password.encode()`). -/
def strBytes (s : String) : List Nat :=
  s.data.foldr (fun c acc => utf8Bytes c.toNat ++ acc) []

/-- `StudentSystem.hash_password`: the SHA-256 hex digest of the UTF-8
encoding of the password. -/
def hash_password (password : String) : String :=
  ⟨(sha256Words (strBytes password)).foldr (fun w acc => word32Hex w ++ acc) []⟩

/-! ### Email validation

`StudentSystem.validate_email` checks the anchored pattern
`^[a-zA-Z0-9._%+-]+@[a-zA-Z0-9.-]+\.[a-zA-Z]{2,}$` with `re.match`.
The decider below accepts a string exactly when some split
`local ++ "@" ++ body ++ "." ++ tld` fits the three character classes,
which is what the backtracking regex accepts.  (Python's `$` would also
tolerate one trailing newline, but `register` strips the email before
calling `validate_email`, so that difference is unreachable there.) -/

/-- Characters allowed in the local part of the email pattern. -/
def isLocalChar (c : Char) : Bool :=
  c.isAlphanum || c == '.' || c == '_' || c == '%' || c == '+' || c == '-'

/-- Characters allowed in the domain part of the email pattern. -/
def isDomainChar (c : Char) : Bool := c.isAlphanum || c == '.' || c == '-'

/-- The final label: at least two ASCII letters, nothing else. -/
def matchTld (l : List Char) : Bool := decide (2 ≤ l.length) && l.all Char.isAlpha

/-- Match `[a-zA-Z0-9.-]*\.[a-zA-Z]{2,}` at the end of the string. -/
def matchDomainRest : List Char → Bool
  | [] => false
  | c :: cs => (c == '.' && matchTld cs) || (isDomainChar c && matchDomainRest cs)

/-- Match `[a-zA-Z0-9.-]+\.[a-zA-Z]{2,}` at the end of the string. -/
def matchDomain : List Char → Bool
  | [] => false
  | c :: cs => isDomainChar c && matchDomainRest cs

/-- Match `[a-zA-Z0-9._%+-]*@` followed by the domain pattern. -/
def matchAfterLocal : List Char → Bool
  | [] => false
  | c :: cs => (c == '@' && matchDomain cs) || (isLocalChar c && matchAfterLocal cs)

/-- `StudentSystem.validate_email`. -/
def validate_email (email : String) : Bool :=
  match email.data with
  | [] => false
  | c :: cs => isLocalChar c && matchAfterLocal cs

/-! ### Data model -/

/-- One student record: the value stored under a student-id key in the
`students` dictionary. -/
structure StudentRecord where
  name : String
  email : String
  password_hash : String
  registered_on : String
  login_count : Nat
  last_login : Option String
deriving DecidableEq

/-- `sid in students` / `students[sid]`: look up the first (with unique
keys, the only) binding of `sid`. -/
def lookupId : List (String × StudentRecord) → String → Option StudentRecord
  | [], _ => none
  | (k, v) :: rest, sid => if k = sid then some v else lookupId rest sid

/-- `students[sid] = r` on an existing key: replace the binding in
place, keeping dictionary order. -/
def updateId : List (String × StudentRecord) → String → StudentRecord →
    List (String × StudentRecord)
  | [], _, _ => []
  | (k, v) :: rest, sid, r =>
      if k = sid then (k, r) :: rest else (k, v) :: updateId rest sid r

/-- `del students[sid]`: remove the binding of `sid`, keeping the order
of the other bindings. -/
def eraseId : List (String × StudentRecord) → String → List (String × StudentRecord)
  | [], _ => []
  | (k, v) :: rest, sid => if k = sid then rest else (k, v) :: eraseId rest sid

/-- A parsed JSON top-level value, as far as `load_data` inspects it:
either a mapping (whose record values are the ones this program ever
writes) or some non-mapping value. -/
inductive JsonValue
  | jdict (d : List (String × StudentRecord))
  | jother
deriving DecidableEq

/-- The state of the `students.json` data file. -/
inductive DiskFile
  | absent
  | unreadable
  | content (v : JsonValue)
deriving DecidableEq

/-- The mutable state of a `StudentSystem` object together with the
data file it persists to. -/
structure StudentSystem where
  students : List (String × StudentRecord)
  current_user : Option String
  disk : DiskFile
deriving DecidableEq

/-! ### Operations (`src/student_system.py`) -/

/-- `StudentSystem.load_data` of `src/student_system.py`: the directory
returned, paired with whether the "Starting fresh" warning was printed.
Missing file: empty, no warning.  Unreadable or unparsable file:
warning, empty.  Parsed non-dictionary top level: warning, empty.
Parsed dictionary: returned as is. -/
def load_data : DiskFile → List (String × StudentRecord) × Bool
  | .absent => ([], false)
  | .unreadable => ([], true)
  | .content (.jdict d) => (d, false)
  | .content .jother => ([], true)

/-- `StudentSystem.load_data` of `src/cw.py`: it has no
`isinstance(data, dict)` check, so whatever JSON value parses is
returned unchanged; only a missing or unparsable file yields the
warning and the empty dictionary. -/
def load_data_cw : DiskFile → JsonValue × Bool
  | .absent => (.jdict [], false)
  | .unreadable => (.jdict [], true)
  | .content v => (v, false)

/-- `StudentSystem.save_data`: overwrite the data file with the full
serialized dictionary (the I/O itself is modelled as succeeding). -/
def save_data (students : List (String × StudentRecord)) : DiskFile :=
  .content (.jdict students)

/-- `StudentSystem.__init__`: load the directory from the data file and
start with no logged-in user. -/
def initSystem (f : DiskFile) : StudentSystem :=
  { students := (load_data f).1, current_user := none, disk := f }

/-- Normalization applied to a raw student id: `.strip().upper()`. -/
def normId (s : String) : String := upperS (trimS s)

/-- Normalization applied to a raw email: `.strip().lower()`. -/
def normEmail (s : String) : String := lowerS (trimS s)

/-- Normalization applied to a raw name: `.strip().title()`. -/
def normName (s : String) : String := titleS (trimS s)

/-- Outcome of `StudentSystem.register`. -/
inductive RegResult
  | ok (r : StudentRecord)
  | missingField
  | weakPassword
  | invalidEmail
  | duplicateId
deriving DecidableEq

/-- `StudentSystem.register` with the prompted inputs passed as
arguments and `now` standing for `datetime.now().strftime(...)`. -/
def register (st : StudentSystem) (nameIn idIn emailIn password now : String) :
    StudentSystem × RegResult :=
  let name := normName nameIn
  let sid := normId idIn
  let email := normEmail emailIn
  if name = "" ∨ sid = "" ∨ email = "" ∨ password = "" then
    (st, .missingField)
  else if password.length < 6 then
    (st, .weakPassword)
  else if validate_email email = false then
    (st, .invalidEmail)
  else if (lookupId st.students sid).isSome = true then
    (st, .duplicateId)
  else
    let r : StudentRecord :=
      { name := name, email := email, password_hash := hash_password password,
        registered_on := now, login_count := 0, last_login := none }
    let students := st.students ++ [(sid, r)]
    ({ students := students, current_user := st.current_user,
       disk := save_data students }, .ok r)

/-- Outcome of `StudentSystem.login`. -/
inductive AuthResult
  | success (r : StudentRecord)
  | notFound
  | badCredentials
deriving DecidableEq

/-- `StudentSystem.login` with the prompted inputs passed as arguments
and `now` standing for `datetime.now().strftime(...)`. -/
def login (st : StudentSystem) (idIn password now : String) :
    StudentSystem × AuthResult :=
  let sid := normId idIn
  match lookupId st.students sid with
  | none => (st, .notFound)
  | some user =>
    if user.password_hash ≠ hash_password password then
      (st, .badCredentials)
    else
      let u := { user with login_count := user.login_count + 1, last_login := some now }
      let students := updateId st.students sid u
      ({ students := students, current_user := some sid,
         disk := save_data students }, .success u)

/-- `StudentSystem.search_student`: the listed `(id, record)` matches,
paired with whether the "Search term cannot be empty" warning fired. -/
def search_student (st : StudentSystem) (queryIn : String) :
    List (String × StudentRecord) × Bool :=
  let q := lowerS (trimS queryIn)
  if q = "" then ([], true)
  else
    (st.students.filter (fun p =>
      containsL q.data (lowerS p.1).data || containsL q.data (lowerS p.2.name).data),
     false)

/-- Outcome of `StudentSystem.delete_student`. -/
inductive DeleteResult
  | deleted (r : StudentRecord)
  | cancelled
  | notFound
deriving DecidableEq

/-- `StudentSystem.delete_student` with the prompted id and the
confirmation answer passed as arguments. -/
def delete_student (st : StudentSystem) (idIn confirmIn : String) :
    StudentSystem × DeleteResult :=
  let sid := normId idIn
  match lookupId st.students sid with
  | some r =>
      let confirm := lowerS (trimS confirmIn)
      if confirm = "y" then
        let students := eraseId st.students sid
        ({ students := students,
           current_user := if st.current_user = some sid then none else st.current_user,
           disk := save_data students }, .deleted r)
      else (st, .cancelled)
  | none => (st, .notFound)

/-- Outcome of `StudentSystem.logout`. -/
inductive LogoutOutcome
  | loggedOut (name : String)
  | wasAnonymous
  | keyError
deriving DecidableEq

/-- `StudentSystem.logout`.  When a user is logged in, the source reads
`self.students[self.current_user]["name"]` before clearing the session;
`keyError` marks the (invariant-excluded) state where that access would
raise. -/
def logout (st : StudentSystem) : StudentSystem × LogoutOutcome :=
  match st.current_user with
  | some sid =>
      match lookupId st.students sid with
      | some r => ({ st with current_user := none }, .loggedOut r.name)
      | none => (st, .keyError)
  | none => (st, .wasAnonymous)

/-! ### The menu loop as a transition system

`StudentSystem.run` dispatches each menu choice to one operation; the
read-only options (`view_all_students`, `view_profile`, `search_student`)
do not touch the state.  Note that option 2 (login) is available also
while a user is logged in. -/

/-- One menu-driven operation with all its prompted inputs. -/
inductive Op
  | register (nameIn idIn emailIn password now : String)
  | login (idIn password now : String)
  | viewAll
  | search (queryIn : String)
  | delete (idIn confirmIn : String)
  | viewProfile
  | logout

/-- The state after one menu operation. -/
def step (st : StudentSystem) : Op → StudentSystem
  | .register n i e p t => (register st n i e p t).1
  | .login i p t => (login st i p t).1
  | .viewAll => st
  | .search _ => st
  | .delete i c => (delete_student st i c).1
  | .viewProfile => st
  | .logout => (logout st).1

/-- The state after a sequence of menu operations. -/
def runOps (st : StudentSystem) : List Op → StudentSystem
  | [] => st
  | op :: ops => runOps (step st op) ops

/-- The session invariant: if a user is logged in, their id is a key of
the directory. -/
def sessionOk (st : StudentSystem) : Bool :=
  match st.current_user with
  | none => true
  | some sid => (lookupId st.students sid).isSome

/-! ### Dictionary lemmas -/

/-- A key bound in `l` keeps its binding when `l` is extended on the
right. -/
theorem lookupId_append_some {l : List (String × StudentRecord)} {k : String}
    {v : StudentRecord} (m : List (String × StudentRecord)) (h : lookupId l k = some v) :
    lookupId (l ++ m) k = some v := by
  induction l with
  | nil => simp [lookupId] at h
  | cons p rest ih =>
    obtain ⟨a, b⟩ := p
    by_cases ha : a = k
    · simp [lookupId, ha] at h ⊢
      exact h
    · simp [lookupId, ha] at h ⊢
      exact ih h

/-- Updating a bound key makes the lookup return the new record. -/
theorem lookupId_updateId_self {l : List (String × StudentRecord)} {k : String}
    {u : StudentRecord} (r : StudentRecord) (h : lookupId l k = some u) :
    lookupId (updateId l k r) k = some r := by
  induction l with
  | nil => simp [lookupId] at h
  | cons p rest ih =>
    obtain ⟨a, b⟩ := p
    by_cases ha : a = k
    · simp [lookupId, updateId, ha]
    · simp [lookupId, updateId, ha] at h ⊢
      exact ih h

/-- Updating any key does not change which keys are bound. -/
theorem lookupId_updateId_isSome (l : List (String × StudentRecord)) (k : String)
    (r : StudentRecord) (x : String) :
    (lookupId (updateId l k r) x).isSome = (lookupId l x).isSome := by
  induction l with
  | nil => simp [updateId]
  | cons p rest ih =>
    obtain ⟨a, b⟩ := p
    by_cases ha : a = k <;> by_cases hx : a = x <;>
      simp_all [lookupId, updateId]

/-- Erasing one key leaves the bindings of all other keys unchanged. -/
theorem lookupId_eraseId_ne (l : List (String × StudentRecord)) {x k : String} (h : x ≠ k) :
    lookupId (eraseId l k) x = lookupId l x := by
  induction l with
  | nil => simp [eraseId]
  | cons p rest ih =>
    obtain ⟨a, b⟩ := p
    by_cases ha : a = k
    · have hax : ¬k = x := fun e => h e.symm
      simp [eraseId, lookupId, ha, hax]
    · by_cases hx : a = x <;> simp_all [eraseId, lookupId]

/-! ### Session-invariant lemmas -/

/-- `sessionOk` unfolded to its universal form. -/
theorem sessionOk_iff (st : StudentSystem) :
    sessionOk st = true ↔
      ∀ sid, st.current_user = some sid → (lookupId st.students sid).isSome = true := by
  cases hc : st.current_user <;> simp [sessionOk, hc]

/-- Every single menu operation preserves the session invariant. -/
theorem sessionOk_step (st : StudentSystem) (op : Op) (h : sessionOk st = true) :
    sessionOk (step st op) = true := by
  cases op with
  | register n i e p t =>
    show sessionOk (register st n i e p t).1 = true
    simp only [register]
    split_ifs with h1 h2 h3 h4
    · exact h
    · exact h
    · exact h
    · exact h
    · rw [sessionOk_iff] at h ⊢
      intro sid hsid
      obtain ⟨v, hv⟩ := Option.isSome_iff_exists.mp (h sid hsid)
      exact Option.isSome_iff_exists.mpr ⟨v, lookupId_append_some _ hv⟩
  | login i p t =>
    show sessionOk (login st i p t).1 = true
    cases hl : lookupId st.students (normId i) with
    | none => simp [login, hl, h]
    | some user =>
      by_cases hp : user.password_hash = hash_password p
      · simp [login, hl, hp, sessionOk, lookupId_updateId_self _ hl]
      · simp [login, hl, hp, h]
  | viewAll => exact h
  | search q => exact h
  | delete i c =>
    show sessionOk (delete_student st i c).1 = true
    cases hl : lookupId st.students (normId i) with
    | none => simp [delete_student, hl, h]
    | some r =>
      by_cases hy : lowerS (trimS c) = "y"
      · have hstate : (delete_student st i c).1 =
            { students := eraseId st.students (normId i),
              current_user := if st.current_user = some (normId i) then none
                              else st.current_user,
              disk := save_data (eraseId st.students (normId i)) } := by
          simp [delete_student, hl, hy]
        rw [hstate, sessionOk_iff]
        intro x hx
        simp only at hx
        by_cases hcu : st.current_user = some (normId i)
        · rw [if_pos hcu] at hx
          cases hx
        · rw [if_neg hcu] at hx
          have hxne : x ≠ normId i := fun e => hcu (by rw [← e]; exact hx)
          rw [lookupId_eraseId_ne _ hxne]
          exact (sessionOk_iff st).mp h x hx
      · simp [delete_student, hl, hy, h]
  | viewProfile => exact h
  | logout =>
    show sessionOk (logout st).1 = true
    cases hc : st.current_user with
    | none => simp [logout, hc, h]
    | some sid =>
      cases hl : lookupId st.students sid with
      | none => simp [logout, hc, hl, h]
      | some r => simp [logout, hc, hl, sessionOk]

/-- Every sequence of menu operations preserves the session invariant. -/
theorem sessionOk_runOps (st : StudentSystem) (ops : List Op) (h : sessionOk st = true) :
    sessionOk (runOps st ops) = true := by
  induction ops generalizing st with
  | nil => exact h
  | cons op ops ih => exact ih _ (sessionOk_step st op h)

/-- A freshly constructed system satisfies the session invariant. -/
theorem sessionOk_init (f : DiskFile) : sessionOk (initSystem f) = true := rfl

/-! ### Concrete states used by witnesses and counterexamples -/

/-- A concrete record whose stored digest is the hash of `"secret1"`. -/
def adaRecord : StudentRecord :=
  { name := "Ada Lovelace", email := "ada@example.com",
    password_hash := hash_password "secret1", registered_on := "t1",
    login_count := 0, last_login := none }

/-- A concrete one-student system with nobody logged in. -/
def adaSystem : StudentSystem :=
  { students := [("S001", adaRecord)], current_user := none,
    disk := save_data [("S001", adaRecord)] }

/-- A concrete record with an opaque stored digest, for scenarios that
never log in. -/
def plainRecord : StudentRecord :=
  { name := "Ada", email := "ada@example.com", password_hash := "d",
    registered_on := "t0", login_count := 0, last_login := none }

/-- A concrete one-student system with an opaque digest and nobody
logged in. -/
def plainSystem : StudentSystem :=
  { students := [("S1", plainRecord)], current_user := none,
    disk := save_data [("S1", plainRecord)] }

/-- `plainSystem` with its student logged in. -/
def loggedSystem : StudentSystem :=
  { plainSystem with current_user := some "S1" }

/-- Two students, with the second one currently logged in. -/
def twoSystem : StudentSystem :=
  { students := [("A1", adaRecord), ("B2", plainRecord)],
    current_user := some "B2",
    disk := save_data [("A1", adaRecord), ("B2", plainRecord)] }

/-! ### Claims -/

/-- C1: `login` succeeds if and only if the uppercased, trimmed id is a
key of the directory and the SHA-256 hex digest of the password equals
that record's stored `password_hash`; on success the record's
`login_count` is incremented by exactly 1 and its `last_login` is set to
the current time; on a not-found or bad-credentials failure the whole
state (record, directory, session, disk) is unchanged. -/
theorem login_auth_correct (st : StudentSystem) (idIn password now : String) :
    ((∃ r, (login st idIn password now).2 = AuthResult.success r) ↔
      ∃ u, lookupId st.students (normId idIn) = some u ∧
        u.password_hash = hash_password password)
    ∧ (∀ u, lookupId st.students (normId idIn) = some u →
        u.password_hash = hash_password password →
        lookupId (login st idIn password now).1.students (normId idIn) =
          some { u with login_count := u.login_count + 1, last_login := some now })
    ∧ (((login st idIn password now).2 = AuthResult.notFound ∨
        (login st idIn password now).2 = AuthResult.badCredentials) →
        (login st idIn password now).1 = st) := by
  cases hl : lookupId st.students (normId idIn) with
  | none =>
    refine ⟨by simp [login, hl], ?_, fun _ => by simp [login, hl]⟩
    intro u hu
    cases hu
  | some user =>
    by_cases hp : user.password_hash = hash_password password
    · refine ⟨by simp [login, hl, hp], ?_, ?_⟩
      · intro u hu hup
        injection hu with hu'
        subst hu'
        simpa [login, hl, hp] using
          lookupId_updateId_self
            ({ user with login_count := user.login_count + 1, last_login := some now }) hl
      · intro hor
        simp [login, hl, hp] at hor
    · refine ⟨by simp [login, hl, hp], ?_, fun _ => by simp [login, hl, hp]⟩
      intro u hu hup
      injection hu with hu'
      subst hu'
      exact absurd hup hp

/-- Witness for C1: logging in with the right password at a concrete
one-student state updates the stored record's counter and timestamp. -/
theorem login_auth_correct_witness :
    lookupId (login adaSystem "s001" "secret1" "t3").1.students (normId "s001") =
      some { adaRecord with login_count := 1, last_login := some "t3" } :=
  (login_auth_correct adaSystem "s001" "secret1" "t3").2.1 adaRecord rfl rfl

/-- C2: `register` fails with the missing-field error when a normalized
field is empty, else with the weak-password error when the raw password
is shorter than 6 characters, else with the invalid-email error when the
trimmed lowercased email fails validation, else with the duplicate-id
error when the uppercased trimmed id is already a key (so a second
registration with a case-insensitively equal id never succeeds); on
every failure the state is unchanged and nothing is persisted. -/
theorem register_validation (st : StudentSystem) (nameIn idIn emailIn password now : String) :
    ((register st nameIn idIn emailIn password now).2 = RegResult.missingField ↔
      (normName nameIn = "" ∨ normId idIn = "" ∨ normEmail emailIn = "" ∨ password = ""))
    ∧ ((register st nameIn idIn emailIn password now).2 = RegResult.weakPassword ↔
      (¬(normName nameIn = "" ∨ normId idIn = "" ∨ normEmail emailIn = "" ∨ password = "") ∧
        password.length < 6))
    ∧ ((register st nameIn idIn emailIn password now).2 = RegResult.invalidEmail ↔
      (¬(normName nameIn = "" ∨ normId idIn = "" ∨ normEmail emailIn = "" ∨ password = "") ∧
        ¬password.length < 6 ∧ validate_email (normEmail emailIn) = false))
    ∧ ((register st nameIn idIn emailIn password now).2 = RegResult.duplicateId ↔
      (¬(normName nameIn = "" ∨ normId idIn = "" ∨ normEmail emailIn = "" ∨ password = "") ∧
        ¬password.length < 6 ∧ validate_email (normEmail emailIn) = true ∧
        (lookupId st.students (normId idIn)).isSome = true))
    ∧ ((lookupId st.students (normId idIn)).isSome = true →
        ∀ r, (register st nameIn idIn emailIn password now).2 ≠ RegResult.ok r)
    ∧ (((register st nameIn idIn emailIn password now).2 = RegResult.missingField ∨
        (register st nameIn idIn emailIn password now).2 = RegResult.weakPassword ∨
        (register st nameIn idIn emailIn password now).2 = RegResult.invalidEmail ∨
        (register st nameIn idIn emailIn password now).2 = RegResult.duplicateId) →
        (register st nameIn idIn emailIn password now).1 = st) := by
  simp only [register]
  split_ifs with h1 h2 h3 h4 <;> simp_all

/-- Witness for C2: at a concrete state holding id `S001`, registering
`s001` again with otherwise valid fields fails with the duplicate-id
error and leaves the state unchanged. -/
theorem register_validation_witness :
    (register adaSystem "Bob" "s001" "bob@x.com" "abcdef" "t2").2 = RegResult.duplicateId
    ∧ (register adaSystem "Bob" "s001" "bob@x.com" "abcdef" "t2").1 = adaSystem := by
  have H := register_validation adaSystem "Bob" "s001" "bob@x.com" "abcdef" "t2"
  have h2 : (register adaSystem "Bob" "s001" "bob@x.com" "abcdef" "t2").2 =
      RegResult.duplicateId :=
    H.2.2.2.1.mpr ⟨by decide, by decide, by decide, by decide⟩
  exact ⟨h2, H.2.2.2.2.2 (Or.inr (Or.inr (Or.inr h2)))⟩

/-- C3: after every successful mutating operation — a successful
`register`, a successful `login`, and a confirmed `delete_student` —
the data file holds exactly the serialization of the in-memory
directory (the full directory is rewritten as the final step, so a
subsequent load sees no partial write). -/
theorem persist_after_success (st : StudentSystem)
    (nameIn idIn emailIn password now idIn2 password2 now2 idIn3 confirmIn : String) :
    ((∃ r, (register st nameIn idIn emailIn password now).2 = RegResult.ok r) →
      (register st nameIn idIn emailIn password now).1.disk =
        save_data (register st nameIn idIn emailIn password now).1.students)
    ∧ ((∃ r, (login st idIn2 password2 now2).2 = AuthResult.success r) →
      (login st idIn2 password2 now2).1.disk =
        save_data (login st idIn2 password2 now2).1.students)
    ∧ ((∃ r, (delete_student st idIn3 confirmIn).2 = DeleteResult.deleted r) →
      (delete_student st idIn3 confirmIn).1.disk =
        save_data (delete_student st idIn3 confirmIn).1.students) := by
  refine ⟨?_, ?_, ?_⟩
  · simp only [register]
    split_ifs <;> simp
  · cases hl : lookupId st.students (normId idIn2) with
    | none => simp [login, hl]
    | some user =>
      by_cases hp : user.password_hash = hash_password password2
      · simp [login, hl, hp]
      · simp [login, hl, hp]
  · cases hl : lookupId st.students (normId idIn3) with
    | none => simp [delete_student, hl]
    | some r =>
      by_cases hy : lowerS (trimS confirmIn) = "y"
      · simp [delete_student, hl, hy]
      · simp [delete_student, hl, hy]

/-- Witness for C3: a successful registration, a successful login and a
confirmed deletion, each at a concrete state, leave the data file equal
to the serialized directory. -/
theorem persist_after_success_witness :
    (register (initSystem .absent) "Ada Lovelace" "s001" "ada@example.com" "secret1" "t1").1.disk =
      save_data
        (register (initSystem .absent) "Ada Lovelace" "s001" "ada@example.com" "secret1"
          "t1").1.students
    ∧ (login adaSystem "s001" "secret1" "t3").1.disk =
      save_data (login adaSystem "s001" "secret1" "t3").1.students
    ∧ (delete_student plainSystem "s1" "y").1.disk =
      save_data (delete_student plainSystem "s1" "y").1.students :=
  ⟨(persist_after_success (initSystem .absent) "Ada Lovelace" "s001" "ada@example.com" "secret1"
      "t1" "" "" "" "" "").1
    ⟨{ name := "Ada Lovelace", email := "ada@example.com",
       password_hash := hash_password "secret1", registered_on := "t1",
       login_count := 0, last_login := none }, rfl⟩,
   (persist_after_success adaSystem "" "" "" "" "" "s001" "secret1" "t3" "" "").2.1
    ⟨{ adaRecord with login_count := 1, last_login := some "t3" }, rfl⟩,
   (persist_after_success plainSystem "" "" "" "" "" "" "" "" "s1" "y").2.2
    ⟨plainRecord, rfl⟩⟩

/-- C4 is violated: from the initial empty system, register `A1` and
`B2`, log in as `A1` (the session is `Authenticated A1`), then log in
as `B2` — the session moves directly to `Authenticated B2` with no
intervening anonymous state. -/
theorem session_takeover_counterexample :
    (runOps (initSystem .absent)
        [Op.register "Ada" "A1" "ada@example.com" "secret1" "t1",
         Op.register "Bob" "B2" "bob@example.com" "hunter22" "t2",
         Op.login "A1" "secret1" "t3"]).current_user = some "A1"
    ∧ (step
        (runOps (initSystem .absent)
          [Op.register "Ada" "A1" "ada@example.com" "secret1" "t1",
           Op.register "Bob" "B2" "bob@example.com" "hunter22" "t2",
           Op.login "A1" "secret1" "t3"])
        (Op.login "B2" "hunter22" "t4")).current_user = some "B2" :=
  ⟨rfl, rfl⟩

/-- C4 (amended): the login option stays available while a user is
logged in, and every successful `login` sets the session directly to
the newly authenticated id — so `Authenticated(id)` can move straight
to `Authenticated(id')` via a successful login, with no intervening
anonymous state; only `logout` and deletion of the current id pass
through the anonymous state. -/
theorem login_success_sets_session (st : StudentSystem) (idIn password now : String)
    (r : StudentRecord) (h : (login st idIn password now).2 = AuthResult.success r) :
    (login st idIn password now).1.current_user = some (normId idIn) := by
  cases hl : lookupId st.students (normId idIn) with
  | none => simp [login, hl] at h
  | some user =>
    by_cases hp : user.password_hash = hash_password password
    · simp [login, hl, hp]
    · simp [login, hl, hp] at h

/-- Witness for C4 (amended): while `B2` is logged in, a successful
login as `A1` moves the session straight to `A1`. -/
theorem login_success_sets_session_witness :
    (login twoSystem "A1" "secret1" "t4").1.current_user = some (normId "A1") :=
  login_success_sets_session twoSystem "A1" "secret1" "t4"
    { adaRecord with login_count := 1, last_login := some "t4" } rfl

/-- C5: in every state reachable from a fresh system the session, when
set, names a key of the directory; every single operation preserves
that invariant (so no operation ever sets the session to an absent
id); and a confirmed deletion of the logged-in id clears the session. -/
theorem session_invariant (f : DiskFile) (ops : List Op) (st : StudentSystem) (op : Op)
    (idIn confirmIn : String) :
    sessionOk (runOps (initSystem f) ops) = true
    ∧ (sessionOk st = true → sessionOk (step st op) = true)
    ∧ ((∃ r, (delete_student st idIn confirmIn).2 = DeleteResult.deleted r) →
        st.current_user = some (normId idIn) →
        (delete_student st idIn confirmIn).1.current_user = none) := by
  refine ⟨sessionOk_runOps _ _ (sessionOk_init f), fun h => sessionOk_step st op h, ?_⟩
  rintro ⟨r, hr⟩ hcu
  cases hl : lookupId st.students (normId idIn) with
  | none => simp [delete_student, hl] at hr
  | some r0 =>
    by_cases hy : lowerS (trimS confirmIn) = "y"
    · simp [delete_student, hl, hy, hcu]
    · simp [delete_student, hl, hy] at hr

/-- Witness for C5 at concrete inputs: the invariant holds after a run,
is preserved by a step from a concrete logged-in state, and a confirmed
self-deletion leaves the session empty. -/
theorem session_invariant_witness :
    sessionOk (runOps (initSystem DiskFile.absent) []) = true
    ∧ sessionOk (step loggedSystem Op.logout) = true
    ∧ (delete_student loggedSystem "s1" "y").1.current_user = none :=
  ⟨(session_invariant DiskFile.absent [] loggedSystem Op.logout "s1" "y").1,
   (session_invariant DiskFile.absent [] loggedSystem Op.logout "s1" "y").2.1 rfl,
   (session_invariant DiskFile.absent [] loggedSystem Op.logout "s1" "y").2.2
     ⟨plainRecord, rfl⟩ rfl⟩

/-- C6 is violated by `src/cw.py`: its `load_data` has no
`isinstance(data, dict)` check, so a present file whose top-level JSON
value is not a mapping is returned as that value, with no corrupt-data
warning and without falling back to the empty directory. -/
theorem load_cw_nondict_counterexample :
    (load_data_cw (DiskFile.content JsonValue.jother)).1 ≠ JsonValue.jdict []
    ∧ (load_data_cw (DiskFile.content JsonValue.jother)).2 = false := by
  decide

/-- C6 (amended): `load_data` of `src/student_system.py` behaves as the
claim states — empty directory for an absent file, warning plus empty
directory for an unreadable/unparsable file and for a non-mapping top
level, the parsed mapping otherwise.  `load_data` of `src/cw.py` warns
and returns the empty directory only for an unreadable/unparsable
file; a well-formed non-mapping top-level value is returned unchanged
with no warning. -/
theorem load_data_robust (d : List (String × StudentRecord)) (v : JsonValue) :
    load_data DiskFile.absent = ([], false)
    ∧ load_data DiskFile.unreadable = ([], true)
    ∧ load_data (DiskFile.content JsonValue.jother) = ([], true)
    ∧ load_data (DiskFile.content (JsonValue.jdict d)) = (d, false)
    ∧ load_data_cw DiskFile.absent = (JsonValue.jdict [], false)
    ∧ load_data_cw DiskFile.unreadable = (JsonValue.jdict [], true)
    ∧ load_data_cw (DiskFile.content v) = (v, false) :=
  ⟨rfl, rfl, rfl, rfl, rfl, rfl, rfl⟩

/-- C7 is violated as literally stated: with one record named `Ada`,
the query `" ada"` (with a leading space) is returned as a match even
though `" ada"` is not a case-insensitive substring of the id `S1` or
of the name `Ada` — the code matches the trimmed query, not the query
itself. -/
theorem search_untrimmed_counterexample :
    (search_student plainSystem " ada").1 = [("S1", plainRecord)]
    ∧ containsL (lowerS " ada").data (lowerS "S1").data = false
    ∧ containsL (lowerS " ada").data (lowerS plainRecord.name).data = false := by
  decide

/-- C7 (amended): when the query is nonempty after trimming,
`search_student` returns exactly those `(id, record)` pairs whose
lowercased id or lowercased name contains the trimmed, lowercased
query, in directory order (a sublist of the directory); when nothing
matches it returns the empty list rather than an error; and the search
operation never changes the state. -/
theorem search_student_correct (st : StudentSystem) (queryIn : String) :
    (∀ p, p ∈ (search_student st queryIn).1 ↔
      (p ∈ st.students ∧ lowerS (trimS queryIn) ≠ "" ∧
        (containsL (lowerS (trimS queryIn)).data (lowerS p.1).data = true ∨
          containsL (lowerS (trimS queryIn)).data (lowerS p.2.name).data = true)))
    ∧ List.Sublist (search_student st queryIn).1 st.students
    ∧ ((∀ p ∈ st.students,
          containsL (lowerS (trimS queryIn)).data (lowerS p.1).data = false ∧
          containsL (lowerS (trimS queryIn)).data (lowerS p.2.name).data = false) →
        (search_student st queryIn).1 = [])
    ∧ step st (Op.search queryIn) = st := by
  by_cases hq : lowerS (trimS queryIn) = ""
  · refine ⟨fun p => by simp [search_student, hq], by simp [search_student, hq],
      fun _ => by simp [search_student, hq], rfl⟩
  · refine ⟨?_, ?_, ?_, rfl⟩
    · intro p
      simp [search_student, hq, List.mem_filter, Bool.or_eq_true, and_assoc]
    · simp [search_student, hq]
    · intro hall
      have hfil : List.filter
          (fun p => containsL (lowerS (trimS queryIn)).data (lowerS p.1).data ||
            containsL (lowerS (trimS queryIn)).data (lowerS p.2.name).data)
          st.students = [] := by
        rw [List.filter_eq_nil_iff]
        intro p hp
        simp [(hall p hp).1, (hall p hp).2]
      simp [search_student, hq, hfil]

/-- Witness for C7 (amended): at a concrete state, the query `"Ada"`
matches the record named `Ada`. -/
theorem search_student_correct_witness :
    ("S1", plainRecord) ∈ (search_student plainSystem "Ada").1 :=
  ((search_student_correct plainSystem "Ada").1 ("S1", plainRecord)).mpr
    ⟨by decide, by decide, by decide⟩

/-- C8: when the id names an existing record but the confirmation
answer, trimmed and lowercased, is not `"y"`, `delete_student` is a
no-op: the directory, the data file and the session are all unchanged,
and it reports a cancellation (inside the operation itself), not an
error. -/
theorem delete_not_confirmed_noop (st : StudentSystem) (idIn confirmIn : String)
    (hfound : (lookupId st.students (normId idIn)).isSome = true)
    (hconf : lowerS (trimS confirmIn) ≠ "y") :
    delete_student st idIn confirmIn = (st, DeleteResult.cancelled) := by
  cases hl : lookupId st.students (normId idIn) with
  | none => rw [hl] at hfound; cases hfound
  | some r => simp [delete_student, hl, hconf]

/-- Witness for C8: answering `"n"` at a concrete one-student state
leaves everything unchanged and reports a cancellation. -/
theorem delete_not_confirmed_noop_witness :
    delete_student plainSystem "S1" "n" = (plainSystem, DeleteResult.cancelled) :=
  delete_not_confirmed_noop plainSystem "S1" "n" (by decide) (by decide)

/-- C9: a query that is empty after trimming is rejected with the
empty-search warning before any matching, and returns no results — in
particular it does not match every record the way the empty substring
otherwise would. -/
theorem search_empty_query_rejected (st : StudentSystem) (queryIn : String)
    (h : trimS queryIn = "") :
    search_student st queryIn = ([], true) := by
  have hq : lowerS (trimS queryIn) = "" := by rw [h]; rfl
  simp [search_student, hq]

/-- Witness for C9: a whitespace-only query at a concrete nonempty
directory returns no matches and fires the warning. -/
theorem search_empty_query_rejected_witness :
    search_student plainSystem "   " = ([], true) ∧ plainSystem.students ≠ [] :=
  ⟨search_empty_query_rejected plainSystem "   " (by decide), by decide⟩

/-- C10: under the session invariant, `logout` never fails: it leaves
the directory and the data file untouched and the session empty, and
when nobody is logged in it is a no-op that reports the informational
no-user outcome rather than an error. -/
theorem logout_never_fails (st : StudentSystem) (h : sessionOk st = true) :
    (logout st).2 ≠ LogoutOutcome.keyError
    ∧ (logout st).1.current_user = none
    ∧ (logout st).1.students = st.students
    ∧ (logout st).1.disk = st.disk
    ∧ (st.current_user = none → logout st = (st, LogoutOutcome.wasAnonymous)) := by
  cases hc : st.current_user with
  | none =>
    refine ⟨by simp [logout, hc], ?_, by simp [logout, hc], by simp [logout, hc],
      fun _ => by simp [logout, hc]⟩
    simp [logout, hc]
  | some sid =>
    cases hl : lookupId st.students sid with
    | none =>
      exfalso
      have := (sessionOk_iff st).mp h sid hc
      rw [hl] at this
      cases this
    | some r =>
      refine ⟨by simp [logout, hc, hl], by simp [logout, hc, hl], by simp [logout, hc, hl],
        by simp [logout, hc, hl], fun hnone => ?_⟩
      cases hnone

/-- Witness for C10: logging out of a concrete logged-in state empties
the session and keeps the directory and the data file. -/
theorem logout_never_fails_witness :
    (logout loggedSystem).1.current_user = none
    ∧ (logout loggedSystem).1.students = loggedSystem.students
    ∧ (logout loggedSystem).2 ≠ LogoutOutcome.keyError :=
  ⟨(logout_never_fails loggedSystem rfl).2.1,
   (logout_never_fails loggedSystem rfl).2.2.1,
   (logout_never_fails loggedSystem rfl).1⟩

end StudentSys
